import Mathlib

/-!
Shallow embedding of the rule-based medical diagnosis engine of the
Gonobee repository (`src/utils/medicalDiagnosis.ts`): the symptom data
model, the keyword-based symptom extractor and the ordered first-match
diagnosis selector, together with theorems about the spec's claims.
-/

namespace Gonobee

/-- Kind of a symptom: observed visually or reported by the user. -/
inductive SymptomType where
  | visual
  | reported
deriving DecidableEq, Repr

/-- Severity levels used by the engine. -/
inductive Severity where
  | mild
  | moderate
  | severe
deriving DecidableEq, Repr

/-- A symptom record, mirroring the `Symptom` interface. -/
structure Symptom where
  type : SymptomType
  category : String
  severity : Severity
  duration : Option String := none
  location : Option String := none
deriving DecidableEq, Repr

/-- Lesion kinds of the `VisualFeatures` interface. -/
inductive LesionType where
  | vesicles
  | ulcers
  | warts
  | discharge
  | rash
  | none
deriving DecidableEq, Repr

/-- Colors of the `VisualFeatures` interface. -/
inductive FeatureColor where
  | red
  | yellow
  | green
  | white
  | clear
  | brown
  | skinColored
deriving DecidableEq, Repr

/-- Spatial patterns of the `VisualFeatures` interface. -/
inductive FeaturePattern where
  | clustered
  | scattered
  | single
  | cauliflower
  | linear
deriving DecidableEq, Repr

/-- Inflammation grades of the `VisualFeatures` interface. -/
inductive Inflammation where
  | none
  | mild
  | moderate
  | severe
deriving DecidableEq, Repr

/-- Textures of the `VisualFeatures` interface. -/
inductive Texture where
  | smooth
  | rough
  | bumpy
  | fluidFilled
deriving DecidableEq, Repr

/-- The `VisualFeatures` record; optional fields are `Option`s, `none`
standing for an absent (`undefined`) field. -/
structure VisualFeatures where
  hasGenitalia : Bool
  lesionType : Option LesionType := Option.none
  color : Option FeatureColor := Option.none
  pattern : Option FeaturePattern := Option.none
  inflammation : Option Inflammation := Option.none
  texture : Option Texture := Option.none
deriving DecidableEq, Repr

/-- Primary diagnosis component of a `DiagnosisResult`. -/
structure PrimaryDiagnosis where
  icd11Code : String
  name : String
  confidence : Nat
deriving DecidableEq, Repr

/-- One entry of the differential diagnosis list. -/
structure DifferentialDiagnosis where
  icd11Code : String
  name : String
  probability : Nat
deriving DecidableEq, Repr

/-- Urgency levels of a `DiagnosisResult`. -/
inductive Urgency where
  | low
  | moderate
  | high
  | urgent
deriving DecidableEq, Repr

/-- The `DiagnosisResult` record. -/
structure DiagnosisResult where
  primaryDiagnosis : PrimaryDiagnosis
  differentialDiagnoses : List DifferentialDiagnosis
  reasoning : String
  recommendedActions : List String
  urgency : Urgency
deriving DecidableEq, Repr

/-- State of the `MedicalDiagnosisEngine` class: the accumulated symptom
array and the current visual features. -/
structure MedicalDiagnosisEngine where
  symptoms : List Symptom := []
  visualFeatures : VisualFeatures := { hasGenitalia := false }
deriving DecidableEq, Repr

/-- A freshly constructed engine: empty symptom array and the initial
visual features record with `hasGenitalia` false and every optional field absent. -/
def freshEngine : MedicalDiagnosisEngine := {}

/-- Method `addSymptom` pushes a symptom onto the accumulated array. -/
def MedicalDiagnosisEngine.addSymptom (e : MedicalDiagnosisEngine) (s : Symptom) :
    MedicalDiagnosisEngine :=
  { e with symptoms := e.symptoms ++ [s] }

/-- Method `setVisualFeatures` overwrites the visual feature record. -/
def MedicalDiagnosisEngine.setVisualFeatures (e : MedicalDiagnosisEngine)
    (f : VisualFeatures) : MedicalDiagnosisEngine :=
  { e with visualFeatures := f }

/-- Method `reset` restores the initial engine state. -/
def MedicalDiagnosisEngine.reset (_e : MedicalDiagnosisEngine) : MedicalDiagnosisEngine :=
  {}

/-! ### Text keyword matching (JavaScript `toLowerCase` / `includes`) -/

/-- Character-wise lowercasing of a string, as JavaScript
`text.toLowerCase()` acts on the ASCII keywords the engine matches. -/
def jsToLower (s : String) : List Char :=
  s.data.map Char.toLower

/-- Predicate `hasSubstring needle hay` decides whether `needle` occurs as a
contiguous substring of `hay`. -/
def hasSubstring (needle : List Char) : List Char → Bool
  | [] => needle.isEmpty
  | c :: rest => needle.isPrefixOf (c :: rest) || hasSubstring needle rest

/-- JavaScript `hay.includes(needle)` on an already-lowercased text. -/
def jsIncludes (hay : List Char) (needle : String) : Bool :=
  hasSubstring needle.data hay

/-! ### Symptom extraction (`extractSymptomsFromText`) -/

/-- Severity heuristic of the pain rule of `extractSymptomsFromText`. -/
def painSeverity (lowerText : List Char) : Severity :=
  if jsIncludes lowerText "severe" || jsIncludes lowerText "intense" ||
      jsIncludes lowerText "excruciating" then .severe
  else if jsIncludes lowerText "mild" || jsIncludes lowerText "slight" then .mild
  else .moderate

/-- Severity heuristic of the discharge rule of `extractSymptomsFromText`. -/
def dischargeSeverity (lowerText : List Char) : Severity :=
  if jsIncludes lowerText "heavy" || jsIncludes lowerText "lots" ||
      jsIncludes lowerText "much" then .severe
  else .moderate

/-- Method `extractSymptomsFromText`: keyword substring checks over the
lowercased text, pushing one symptom per matching category group, in the
source's order. -/
def extractSymptomsFromText (text : String) : List Symptom :=
  let lowerText := jsToLower text
  (if jsIncludes lowerText "pain" || jsIncludes lowerText "hurt" ||
      jsIncludes lowerText "sore" || jsIncludes lowerText "ache" then
    [{ type := .reported, category := "pain", severity := painSeverity lowerText }]
  else []) ++
  (if jsIncludes lowerText "itch" || jsIncludes lowerText "itchy" ||
      jsIncludes lowerText "itching" then
    [{ type := .reported, category := "itching", severity := .moderate }]
  else []) ++
  (if jsIncludes lowerText "discharge" || jsIncludes lowerText "fluid" ||
      jsIncludes lowerText "leak" || jsIncludes lowerText "drip" then
    [{ type := .reported, category := "discharge", severity := dischargeSeverity lowerText }]
  else []) ++
  (if jsIncludes lowerText "red" || jsIncludes lowerText "redness" ||
      jsIncludes lowerText "inflamed" || jsIncludes lowerText "inflammation" then
    [{ type := .reported, category := "redness", severity := .moderate }]
  else []) ++
  (if jsIncludes lowerText "bump" || jsIncludes lowerText "lump" ||
      jsIncludes lowerText "growth" || jsIncludes lowerText "wart" then
    [{ type := .reported, category := "lesion", severity := .moderate }]
  else []) ++
  (if jsIncludes lowerText "blister" || jsIncludes lowerText "vesicle" ||
      jsIncludes lowerText "fluid-filled" || jsIncludes lowerText "bubble" then
    [{ type := .reported, category := "vesicles", severity := .moderate }]
  else []) ++
  (if jsIncludes lowerText "ulcer" || jsIncludes lowerText "sore" ||
      jsIncludes lowerText "open wound" || jsIncludes lowerText "crater" then
    [{ type := .reported, category := "ulcer", severity := .severe }]
  else []) ++
  (if jsIncludes lowerText "urination" || jsIncludes lowerText "urinating" ||
      jsIncludes lowerText "pee" || jsIncludes lowerText "burning" then
    [{ type := .reported, category := "dysuria", severity := .moderate }]
  else [])

/-! ### The fixed result records of the diagnosis branches -/

/-- The no-abnormality result returned when no symptoms are present. -/
def noAbnormalityResult : DiagnosisResult :=
  { primaryDiagnosis :=
      { icd11Code := "QA02", name := "No abnormality detected", confidence := 95 }
    differentialDiagnoses := []
    reasoning := "No reported symptoms or visual abnormalities were detected."
    recommendedActions :=
      [ "Continue regular health checkups"
      , "Perform self-checks if symptoms appear"
      , "Practice safe sexual behaviors" ]
    urgency := .low }

/-- Branch `diagnoseHerpes`: the fixed herpes branch record. -/
def diagnoseHerpes : DiagnosisResult :=
  { primaryDiagnosis :=
      { icd11Code := "1E90", name := "Suspected Genital Herpes Infection", confidence := 85 }
    differentialDiagnoses :=
      [ { icd11Code := "1A62", name := "Syphilis", probability := 15 }
      , { icd11Code := "1F20", name := "Contact Dermatitis", probability := 10 } ]
    reasoning := "The combination of vesicular lesions and pain strongly suggests genital herpes infection."
    recommendedActions :=
      [ "Seek immediate consultation with a urologist or STI specialist"
      , "PCR testing is needed for definitive diagnosis"
      , "Avoid sexual contact to prevent partner transmission"
      , "Early antiviral treatment is most effective" ]
    urgency := .high }

/-- Branch `diagnoseSyphilis`: the fixed syphilis branch record. -/
def diagnoseSyphilis : DiagnosisResult :=
  { primaryDiagnosis :=
      { icd11Code := "1A62", name := "Suspected Syphilis", confidence := 80 }
    differentialDiagnoses :=
      [ { icd11Code := "1E90", name := "Genital Herpes", probability := 20 }
      , { icd11Code := "1F20", name := "Traumatic Ulcer", probability := 15 } ]
    reasoning := "The presence of painless ulcers suggests primary syphilis lesions (chancre)."
    recommendedActions :=
      [ "Seek urgent medical attention immediately"
      , "Serological testing (RPR, TPLA) is required"
      , "Partner testing is also necessary"
      , "Early treatment can achieve complete cure" ]
    urgency := .urgent }

/-- Branch `diagnoseHPV`: the fixed genital warts branch record. -/
def diagnoseHPV : DiagnosisResult :=
  { primaryDiagnosis :=
      { icd11Code := "1E91.1", name := "Suspected Genital Warts (HPV Infection)", confidence := 90 }
    differentialDiagnoses :=
      [ { icd11Code := "2F20", name := "Seborrheic Keratosis", probability := 10 }
      , { icd11Code := "1F21", name := "Folliculitis", probability := 5 } ]
    reasoning := "Cauliflower-like warty lesions strongly suggest HPV-induced genital warts."
    recommendedActions :=
      [ "Consult with a urologist or dermatologist"
      , "Tissue diagnosis for definitive confirmation is recommended"
      , "Consider partner screening"
      , "Treatment options include surgical removal, cryotherapy, and topical medications" ]
    urgency := .moderate }

/-- The gonorrhea half of `diagnoseUrethritis`. -/
def gonorrheaResult : DiagnosisResult :=
  { primaryDiagnosis :=
      { icd11Code := "1A91.0", name := "Suspected Gonococcal Urethritis", confidence := 75 }
    differentialDiagnoses :=
      [ { icd11Code := "1A95.0", name := "Chlamydial Urethritis", probability := 60 }
      , { icd11Code := "1A96", name := "Non-specific Urethritis", probability := 30 } ]
    reasoning := "Purulent discharge with dysuria suggests bacterial urethritis. Differentiation between gonorrhea and chlamydia is needed."
    recommendedActions :=
      [ "Consult with a urologist"
      , "Urine testing and discharge culture for pathogen identification is necessary"
      , "Simultaneous partner treatment is important"
      , "Appropriate antibiotic therapy is required" ]
    urgency := .high }

/-- The chlamydia half of `diagnoseUrethritis`. -/
def chlamydiaResult : DiagnosisResult :=
  { primaryDiagnosis :=
      { icd11Code := "1A95.0", name := "Suspected Chlamydia Infection", confidence := 70 }
    differentialDiagnoses :=
      [ { icd11Code := "1A91.0", name := "Gonorrhea", probability := 40 }
      , { icd11Code := "1A96", name := "Non-specific Urethritis", probability := 25 } ]
    reasoning := "Mild symptoms suggest chlamydia infection."
    recommendedActions :=
      [ "Consult with a urologist or STI specialist"
      , "PCR testing for definitive diagnosis is recommended"
      , "Partner testing and treatment is also necessary"
      , "Appropriate antibiotic treatment can achieve complete cure" ]
    urgency := .moderate }

/-- Branch `diagnoseCandida`: the fixed candida branch record. -/
def diagnoseCandida : DiagnosisResult :=
  { primaryDiagnosis :=
      { icd11Code := "1F23.0", name := "Suspected Candida Balanitis", confidence := 80 }
    differentialDiagnoses :=
      [ { icd11Code := "1F20", name := "Contact Dermatitis", probability := 20 }
      , { icd11Code := "1F21", name := "Seborrheic Dermatitis", probability := 15 } ]
    reasoning := "Itching with white discharge suggests candida infection."
    recommendedActions :=
      [ "Consult with a urologist or dermatologist"
      , "Fungal testing for definitive diagnosis is recommended"
      , "Antifungal medication treatment is effective"
      , "Maintain cleanliness and dryness" ]
    urgency := .moderate }

/-- Branch `diagnoseInflammation`: the fixed non-specific inflammation record. -/
def diagnoseInflammation : DiagnosisResult :=
  { primaryDiagnosis :=
      { icd11Code := "1F20", name := "Suspected Non-specific Inflammation", confidence := 60 }
    differentialDiagnoses :=
      [ { icd11Code := "1A95.0", name := "Chlamydia Infection", probability := 30 }
      , { icd11Code := "1F23.0", name := "Candida Infection", probability := 25 }
      , { icd11Code := "1F21", name := "Contact Dermatitis", probability := 20 } ]
    reasoning := "Inflammatory symptoms are present but lack specific findings, requiring detailed examination."
    recommendedActions :=
      [ "Consult with a urologist for detailed examination"
      , "Exclusion of infectious diseases is important"
      , "Seek early consultation if symptoms worsen"
      , "Maintain good hygiene" ]
    urgency := .moderate }

/-- Branch `diagnoseGeneral`: the fixed generic STI advisory record. -/
def diagnoseGeneral : DiagnosisResult :=
  { primaryDiagnosis :=
      { icd11Code := "1A96", name := "Suspected STI (Requires Further Investigation)", confidence := 50 }
    differentialDiagnoses :=
      [ { icd11Code := "1A95.0", name := "Chlamydia Infection", probability := 40 }
      , { icd11Code := "1A91.0", name := "Gonorrhea", probability := 30 }
      , { icd11Code := "1F23.0", name := "Candida Infection", probability := 25 } ]
    reasoning := "Symptoms suggest possible STI, but definitive diagnosis requires detailed examination."
    recommendedActions :=
      [ "Consult with a urologist or STI specialist"
      , "Comprehensive STI testing panel is recommended"
      , "Consider partner screening"
      , "Seek early consultation before symptoms worsen" ]
    urgency := .moderate }

/-! ### The diagnosis selector (`diagnose`) -/

/-- The reported symptoms of the engine state, as filtered in `diagnose`. -/
def reportedSymptoms (e : MedicalDiagnosisEngine) : List Symptom :=
  e.symptoms.filter (fun s => s.type == SymptomType.reported)

/-- The categories of the reported symptoms, as mapped in `diagnose`. -/
def symptomCategories (e : MedicalDiagnosisEngine) : List String :=
  (reportedSymptoms e).map (fun s => s.category)

/-- Condition of the leading no-symptom branch of `diagnose`. -/
def noSymptomCond (e : MedicalDiagnosisEngine) : Prop :=
  (reportedSymptoms e).length = 0 ∧
    (e.visualFeatures.hasGenitalia = false ∨
      e.visualFeatures.lesionType = some LesionType.none)

/-- Condition of the herpes rule of `diagnose`. -/
def herpesCond (e : MedicalDiagnosisEngine) : Prop :=
  "vesicles" ∈ symptomCategories e ∨
    (e.visualFeatures.lesionType = some LesionType.vesicles ∧
      e.visualFeatures.texture = some Texture.fluidFilled)

/-- Condition of the syphilis rule of `diagnose`. -/
def syphilisCond (e : MedicalDiagnosisEngine) : Prop :=
  "ulcer" ∈ symptomCategories e ∨
    (e.visualFeatures.lesionType = some LesionType.ulcers ∧
      e.visualFeatures.inflammation = some Inflammation.severe)

/-- Condition of the HPV rule of `diagnose`. -/
def hpvCond (e : MedicalDiagnosisEngine) : Prop :=
  "lesion" ∈ symptomCategories e ∨
    (e.visualFeatures.lesionType = some LesionType.warts ∧
      e.visualFeatures.pattern = some FeaturePattern.cauliflower)

/-- Condition of the urethritis rule of `diagnose`. -/
def urethritisCond (e : MedicalDiagnosisEngine) : Prop :=
  "discharge" ∈ symptomCategories e ∨ "dysuria" ∈ symptomCategories e ∨
    e.visualFeatures.lesionType = some LesionType.discharge

/-- Condition of the candida rule of `diagnose`. -/
def candidaCond (e : MedicalDiagnosisEngine) : Prop :=
  "itching" ∈ symptomCategories e ∧
    ("discharge" ∈ symptomCategories e ∨
      e.visualFeatures.color = some FeatureColor.white)

/-- Condition of the general inflammation rule of `diagnose`. -/
def inflammationCond (e : MedicalDiagnosisEngine) : Prop :=
  "redness" ∈ symptomCategories e ∨ "pain" ∈ symptomCategories e

/-- Helper `diagnoseUrethritis` scans the whole accumulated symptom array for a
discharge-category entry. -/
def hasDischarge (e : MedicalDiagnosisEngine) : Prop :=
  ∃ s ∈ e.symptoms, s.category = "discharge"

/-- Helper `diagnoseUrethritis` scans the whole accumulated symptom array for a
dysuria-category entry. -/
def hasDysuria (e : MedicalDiagnosisEngine) : Prop :=
  ∃ s ∈ e.symptoms, s.category = "dysuria"

instance (e : MedicalDiagnosisEngine) : Decidable (noSymptomCond e) := by
  unfold noSymptomCond; exact inferInstance

instance (e : MedicalDiagnosisEngine) : Decidable (herpesCond e) := by
  unfold herpesCond; exact inferInstance

instance (e : MedicalDiagnosisEngine) : Decidable (syphilisCond e) := by
  unfold syphilisCond; exact inferInstance

instance (e : MedicalDiagnosisEngine) : Decidable (hpvCond e) := by
  unfold hpvCond; exact inferInstance

instance (e : MedicalDiagnosisEngine) : Decidable (urethritisCond e) := by
  unfold urethritisCond; exact inferInstance

instance (e : MedicalDiagnosisEngine) : Decidable (candidaCond e) := by
  unfold candidaCond; exact inferInstance

instance (e : MedicalDiagnosisEngine) : Decidable (inflammationCond e) := by
  unfold inflammationCond; exact inferInstance

instance (e : MedicalDiagnosisEngine) : Decidable (hasDischarge e) := by
  unfold hasDischarge; exact inferInstance

instance (e : MedicalDiagnosisEngine) : Decidable (hasDysuria e) := by
  unfold hasDysuria; exact inferInstance

/-- Branch `diagnoseUrethritis`: gonorrhea when both discharge and dysuria are
among the accumulated symptoms, chlamydia otherwise. -/
def diagnoseUrethritis (e : MedicalDiagnosisEngine) : DiagnosisResult :=
  if hasDischarge e ∧ hasDysuria e then gonorrheaResult else chlamydiaResult

/-- Method `diagnose`: the ordered, first-match-wins rule list of the engine. -/
def diagnose (e : MedicalDiagnosisEngine) : DiagnosisResult :=
  if noSymptomCond e then noAbnormalityResult
  else if herpesCond e then diagnoseHerpes
  else if syphilisCond e then diagnoseSyphilis
  else if hpvCond e then diagnoseHPV
  else if urethritisCond e then diagnoseUrethritis e
  else if candidaCond e then diagnoseCandida
  else if inflammationCond e then diagnoseInflammation
  else diagnoseGeneral

/-- The engine state built by the diagnosis page: a fresh engine into
which every symptom extracted from the transcript text is pushed. -/
def engineFromText (text : String) : MedicalDiagnosisEngine :=
  (extractSymptomsFromText text).foldl MedicalDiagnosisEngine.addSymptom freshEngine

/-- Containment of a keyword in the raw (not yet lowercased) text. -/
def textContains (t : String) (k : String) : Bool :=
  hasSubstring k.data t.data

/-- A call of the `diagnose` method as a state transformer: the body of
`diagnose` only reads `this.symptoms` and `this.visualFeatures` (through
`filter`, `map` and `some`, none of which mutate) and assigns neither, so
the post-call engine state is the pre-call one. -/
def diagnoseCall (e : MedicalDiagnosisEngine) : DiagnosisResult × MedicalDiagnosisEngine :=
  (diagnose e, e)

/-- The lowercased text contains the keyword `sore` and none of the other
category keywords of `extractSymptomsFromText`. -/
def soreIsOnlyKeyword (t : String) : Prop :=
  textContains t "sore" = true ∧
  jsIncludes (jsToLower t) "pain" = false ∧
  jsIncludes (jsToLower t) "hurt" = false ∧
  jsIncludes (jsToLower t) "ache" = false ∧
  jsIncludes (jsToLower t) "itch" = false ∧
  jsIncludes (jsToLower t) "itchy" = false ∧
  jsIncludes (jsToLower t) "itching" = false ∧
  jsIncludes (jsToLower t) "discharge" = false ∧
  jsIncludes (jsToLower t) "fluid" = false ∧
  jsIncludes (jsToLower t) "leak" = false ∧
  jsIncludes (jsToLower t) "drip" = false ∧
  jsIncludes (jsToLower t) "red" = false ∧
  jsIncludes (jsToLower t) "redness" = false ∧
  jsIncludes (jsToLower t) "inflamed" = false ∧
  jsIncludes (jsToLower t) "inflammation" = false ∧
  jsIncludes (jsToLower t) "bump" = false ∧
  jsIncludes (jsToLower t) "lump" = false ∧
  jsIncludes (jsToLower t) "growth" = false ∧
  jsIncludes (jsToLower t) "wart" = false ∧
  jsIncludes (jsToLower t) "blister" = false ∧
  jsIncludes (jsToLower t) "vesicle" = false ∧
  jsIncludes (jsToLower t) "fluid-filled" = false ∧
  jsIncludes (jsToLower t) "bubble" = false ∧
  jsIncludes (jsToLower t) "ulcer" = false ∧
  jsIncludes (jsToLower t) "open wound" = false ∧
  jsIncludes (jsToLower t) "crater" = false ∧
  jsIncludes (jsToLower t) "urination" = false ∧
  jsIncludes (jsToLower t) "urinating" = false ∧
  jsIncludes (jsToLower t) "pee" = false ∧
  jsIncludes (jsToLower t) "burning" = false

instance (t : String) : Decidable (soreIsOnlyKeyword t) := by
  unfold soreIsOnlyKeyword; exact inferInstance

/-! ## Helper lemmas -/

/-- Lowercasing a list of characters fixes a keyword that is already
lowercase, position by position, so prefix matching survives lowercasing. -/
theorem isPrefixOf_toLower {n h : List Char} (hn : n.map Char.toLower = n)
    (hp : n.isPrefixOf h = true) : n.isPrefixOf (h.map Char.toLower) = true := by
  induction n generalizing h with
  | nil => simp [List.isPrefixOf]
  | cons a as ih =>
    cases h with
    | nil => simp [List.isPrefixOf] at hp
    | cons b bs =>
      simp only [List.isPrefixOf, Bool.and_eq_true, beq_iff_eq] at hp
      simp only [List.map_cons, List.cons.injEq] at hn
      simp only [List.map_cons, List.isPrefixOf, Bool.and_eq_true, beq_iff_eq]
      exact ⟨by rw [← hp.1, hn.1], ih hn.2 hp.2⟩

/-- Substring matching of an already-lowercase keyword survives
lowercasing of the haystack. -/
theorem hasSubstring_toLower {n h : List Char} (hn : n.map Char.toLower = n)
    (hs : hasSubstring n h = true) : hasSubstring n (h.map Char.toLower) = true := by
  induction h with
  | nil => simpa [hasSubstring] using hs
  | cons c cs ih =>
    simp only [hasSubstring, Bool.or_eq_true] at hs
    simp only [List.map_cons, hasSubstring, Bool.or_eq_true]
    rcases hs with hp | hrest
    · exact Or.inl (by simpa using isPrefixOf_toLower hn hp)
    · exact Or.inr (ih hrest)

/-- Raw containment of an all-lowercase keyword implies containment in
the lowercased text, which is what the extractor tests. -/
theorem jsIncludes_of_textContains {t k : String} (hk : k.data.map Char.toLower = k.data)
    (h : textContains t k = true) : jsIncludes (jsToLower t) k = true :=
  hasSubstring_toLower hk h

/-- Membership in a conditional singleton list. -/
theorem mem_ite_nil_singleton {α : Type} (c : Prop) [Decidable c] (a x : α) :
    (a ∈ (if c then [x] else [])) ↔ c ∧ a = x := by
  split
  · simp [*]
  · simp [*]

/-- A category is among the reported symptom categories exactly when some
accumulated symptom is reported and carries it. -/
theorem mem_cats_iff {e : MedicalDiagnosisEngine} {c : String} :
    c ∈ symptomCategories e ↔
      ∃ s ∈ e.symptoms, s.type = SymptomType.reported ∧ s.category = c := by
  unfold symptomCategories reportedSymptoms
  simp only [List.mem_map, List.mem_filter, beq_iff_eq]
  constructor
  · rintro ⟨s, ⟨h1, h2⟩, h3⟩; exact ⟨s, h1, h2, h3⟩
  · rintro ⟨s, h1, h2, h3⟩; exact ⟨s, ⟨h1, h2⟩, h3⟩

/-- A reported category rules out the leading no-symptom branch. -/
theorem not_noSymptomCond_of_mem_cats {e : MedicalDiagnosisEngine} {c : String}
    (h : c ∈ symptomCategories e) : ¬ noSymptomCond e := by
  rintro ⟨hl, -⟩
  rw [List.length_eq_zero] at hl
  unfold symptomCategories at h
  rw [hl] at h
  simp at h

/-- Folding `addSymptom` over a list appends the list to the symptom array. -/
theorem foldl_addSymptom (l : List Symptom) (e : MedicalDiagnosisEngine) :
    l.foldl MedicalDiagnosisEngine.addSymptom e =
      { e with symptoms := e.symptoms ++ l } := by
  induction l generalizing e with
  | nil => simp
  | cons a as ih =>
    simp only [List.foldl_cons, ih, MedicalDiagnosisEngine.addSymptom,
      List.append_assoc, List.singleton_append]

/-- The engine built by the diagnosis page holds exactly the extracted
symptoms and the initial visual features. -/
theorem engineFromText_eq (t : String) :
    engineFromText t =
      { symptoms := extractSymptomsFromText t
        visualFeatures := { hasGenitalia := false } } := by
  unfold engineFromText freshEngine
  rw [foldl_addSymptom]
  simp

/-- Reported symptom membership is determined by symptom membership. -/
theorem mem_reported_congr {e₁ e₂ : MedicalDiagnosisEngine}
    (h : ∀ s, s ∈ e₁.symptoms ↔ s ∈ e₂.symptoms) :
    ∀ s, s ∈ reportedSymptoms e₁ ↔ s ∈ reportedSymptoms e₂ := by
  intro s
  simp [reportedSymptoms, List.mem_filter, h s]

/-- Category membership is determined by symptom membership. -/
theorem mem_cats_congr {e₁ e₂ : MedicalDiagnosisEngine}
    (h : ∀ s, s ∈ e₁.symptoms ↔ s ∈ e₂.symptoms) :
    ∀ c, c ∈ symptomCategories e₁ ↔ c ∈ symptomCategories e₂ := by
  intro c
  rw [mem_cats_iff, mem_cats_iff]
  exact exists_congr fun s => and_congr_left' (h s)

/-- Emptiness of the reported symptom list is determined by membership. -/
theorem reported_len_congr {e₁ e₂ : MedicalDiagnosisEngine}
    (h : ∀ s, s ∈ e₁.symptoms ↔ s ∈ e₂.symptoms) :
    (reportedSymptoms e₁).length = 0 ↔ (reportedSymptoms e₂).length = 0 := by
  simp only [List.length_eq_zero, List.eq_nil_iff_forall_not_mem]
  exact forall_congr' fun s => not_congr (mem_reported_congr h s)

/-- The whole diagnosis outcome is determined by the set of accumulated
symptoms together with the visual features. -/
theorem diagnose_congr (e₁ e₂ : MedicalDiagnosisEngine)
    (h : ∀ s, s ∈ e₁.symptoms ↔ s ∈ e₂.symptoms)
    (hv : e₁.visualFeatures = e₂.visualFeatures) :
    diagnose e₁ = diagnose e₂ := by
  have hc := mem_cats_congr h
  have hl := reported_len_congr h
  have hd : hasDischarge e₁ ↔ hasDischarge e₂ := by
    unfold hasDischarge; exact exists_congr fun s => and_congr_left' (h s)
  have hdy : hasDysuria e₁ ↔ hasDysuria e₂ := by
    unfold hasDysuria; exact exists_congr fun s => and_congr_left' (h s)
  have h0 : noSymptomCond e₁ ↔ noSymptomCond e₂ := by
    unfold noSymptomCond; rw [hv]; exact and_congr hl Iff.rfl
  have h1 : herpesCond e₁ ↔ herpesCond e₂ := by
    unfold herpesCond; rw [hv]; exact or_congr (hc _) Iff.rfl
  have h2 : syphilisCond e₁ ↔ syphilisCond e₂ := by
    unfold syphilisCond; rw [hv]; exact or_congr (hc _) Iff.rfl
  have h3 : hpvCond e₁ ↔ hpvCond e₂ := by
    unfold hpvCond; rw [hv]; exact or_congr (hc _) Iff.rfl
  have h4 : urethritisCond e₁ ↔ urethritisCond e₂ := by
    unfold urethritisCond; rw [hv]; exact or_congr (hc _) (or_congr (hc _) Iff.rfl)
  have h5 : candidaCond e₁ ↔ candidaCond e₂ := by
    unfold candidaCond; rw [hv]; exact and_congr (hc _) (or_congr (hc _) Iff.rfl)
  have h6 : inflammationCond e₁ ↔ inflammationCond e₂ := by
    unfold inflammationCond; exact or_congr (hc _) (hc _)
  unfold diagnose diagnoseUrethritis
  exact if_congr h0 rfl
    (if_congr h1 rfl
      (if_congr h2 rfl
        (if_congr h3 rfl
          (if_congr h4 (if_congr (and_congr hd hdy) rfl rfl)
            (if_congr h5 rfl
              (if_congr h6 rfl rfl))))))

/-! ## Claim theorems -/

/-- C5. On a fresh engine (no symptoms, initial visual features with
`hasGenitalia` false), `diagnose()` returns the no-abnormality branch:
primary ICD-11 code `QA02`, urgency `low`, and an empty differential
diagnosis list. -/
theorem fresh_engine_no_abnormality :
    diagnose freshEngine = noAbnormalityResult ∧
    (diagnose freshEngine).primaryDiagnosis.icd11Code = "QA02" ∧
    (diagnose freshEngine).urgency = Urgency.low ∧
    (diagnose freshEngine).differentialDiagnoses = [] := by
  refine ⟨?_, ?_, ?_, ?_⟩ <;> decide

/-- C2. Whenever the accumulated symptoms include a reported symptom of
category `vesicles`, `diagnose()` returns the herpes branch: primary
ICD-11 code `1E90` with confidence 85. -/
theorem vesicles_reported_herpes (e : MedicalDiagnosisEngine)
    (h : ∃ s ∈ e.symptoms, s.type = SymptomType.reported ∧ s.category = "vesicles") :
    diagnose e = diagnoseHerpes ∧
    (diagnose e).primaryDiagnosis.icd11Code = "1E90" ∧
    (diagnose e).primaryDiagnosis.confidence = 85 := by
  have hv : "vesicles" ∈ symptomCategories e := mem_cats_iff.mpr h
  have hns : ¬ noSymptomCond e := not_noSymptomCond_of_mem_cats hv
  have hh : herpesCond e := Or.inl hv
  unfold diagnose
  rw [if_neg hns, if_pos hh]
  exact ⟨rfl, rfl, rfl⟩

/-- Witness for C2: an engine holding exactly one reported vesicles
symptom is diagnosed with the herpes branch. -/
theorem vesicles_reported_herpes_witness :
    diagnose { symptoms :=
        [{ type := .reported, category := "vesicles", severity := .moderate }] } =
      diagnoseHerpes ∧
    (diagnose { symptoms :=
        [{ type := .reported, category := "vesicles", severity := .moderate }] }
      ).primaryDiagnosis.icd11Code = "1E90" ∧
    (diagnose { symptoms :=
        [{ type := .reported, category := "vesicles", severity := .moderate }] }
      ).primaryDiagnosis.confidence = 85 :=
  vesicles_reported_herpes _ (by decide)

/-- C10. A `diagnose()` call is read-only: it leaves the accumulated
symptom array and the visual feature record unchanged, and two
consecutive calls on the same state return equal results. -/
theorem diagnose_readonly (e : MedicalDiagnosisEngine) :
    (diagnoseCall e).2.symptoms = e.symptoms ∧
    (diagnoseCall e).2.visualFeatures = e.visualFeatures ∧
    (diagnoseCall ((diagnoseCall e).2)).1 = (diagnoseCall e).1 :=
  ⟨rfl, rfl, rfl⟩

/-- C6. The diagnosis outcome is invariant under reordering of the
accumulated symptoms and under appending a symptom already present:
permuting the symptom sequence (with the same visual features) does not
change `diagnose()`, and neither does pushing a duplicate. -/
theorem diagnose_perm_dup_invariant :
    (∀ e₁ e₂ : MedicalDiagnosisEngine, List.Perm e₁.symptoms e₂.symptoms →
      e₁.visualFeatures = e₂.visualFeatures → diagnose e₁ = diagnose e₂) ∧
    (∀ (e : MedicalDiagnosisEngine) (s : Symptom), s ∈ e.symptoms →
      diagnose (e.addSymptom s) = diagnose e) := by
  constructor
  · intro e₁ e₂ hp hv
    exact diagnose_congr e₁ e₂ (fun s => hp.mem_iff) hv
  · intro e s hs
    refine diagnose_congr _ _ (fun x => ?_) rfl
    simp only [MedicalDiagnosisEngine.addSymptom, List.mem_append,
      List.mem_singleton]
    constructor
    · rintro (hx | rfl)
      · exact hx
      · exact hs
    · exact Or.inl

/-- Witness for C6: swapping two accumulated symptoms, or pushing one of
them again, leaves the diagnosis unchanged. -/
theorem diagnose_perm_dup_invariant_witness :
    diagnose { symptoms :=
        [{ type := .reported, category := "redness", severity := .moderate },
         { type := .reported, category := "pain", severity := .mild }] } =
      diagnose { symptoms :=
        [{ type := .reported, category := "pain", severity := .mild },
         { type := .reported, category := "redness", severity := .moderate }] } ∧
    diagnose (MedicalDiagnosisEngine.addSymptom
        { symptoms :=
          [{ type := .reported, category := "redness", severity := .moderate },
           { type := .reported, category := "pain", severity := .mild }] }
        { type := .reported, category := "redness", severity := .moderate }) =
      diagnose { symptoms :=
        [{ type := .reported, category := "redness", severity := .moderate },
         { type := .reported, category := "pain", severity := .mild }] } :=
  ⟨diagnose_perm_dup_invariant.1 _ _ (List.Perm.swap _ _ _) rfl,
   diagnose_perm_dup_invariant.2 _ _ (by decide)⟩

/-- C7. The selector is total and defaults rather than fails: every
engine state is mapped to one of the fixed branch records, and when
reported symptoms are present but no rule predicate matches, the generic
STI advisory record (ICD-11 `1A96`, confidence 50) is returned. -/
theorem diagnose_total_default :
    (∀ e : MedicalDiagnosisEngine,
      diagnose e = noAbnormalityResult ∨ diagnose e = diagnoseHerpes ∨
      diagnose e = diagnoseSyphilis ∨ diagnose e = diagnoseHPV ∨
      diagnose e = gonorrheaResult ∨ diagnose e = chlamydiaResult ∨
      diagnose e = diagnoseCandida ∨ diagnose e = diagnoseInflammation ∨
      diagnose e = diagnoseGeneral) ∧
    (∀ e : MedicalDiagnosisEngine, reportedSymptoms e ≠ [] →
      ¬ herpesCond e → ¬ syphilisCond e → ¬ hpvCond e → ¬ urethritisCond e →
      ¬ candidaCond e → ¬ inflammationCond e →
      diagnose e = diagnoseGeneral ∧
      (diagnose e).primaryDiagnosis.icd11Code = "1A96" ∧
      (diagnose e).primaryDiagnosis.confidence = 50) := by
  constructor
  · intro e
    unfold diagnose diagnoseUrethritis
    split_ifs <;> tauto
  · intro e h0 h1 h2 h3 h4 h5 h6
    have hns : ¬ noSymptomCond e := by
      rintro ⟨hl, -⟩
      exact h0 (List.length_eq_zero.mp hl)
    unfold diagnose
    rw [if_neg hns, if_neg h1, if_neg h2, if_neg h3, if_neg h4, if_neg h5,
      if_neg h6]
    exact ⟨rfl, rfl, rfl⟩

/-- Witness for C7: a reported symptom whose category matches no rule is
mapped to the generic advisory record. -/
theorem diagnose_total_default_witness :
    diagnose { symptoms :=
        [{ type := .reported, category := "fever", severity := .moderate }] } =
      diagnoseGeneral ∧
    (diagnose { symptoms :=
        [{ type := .reported, category := "fever", severity := .moderate }] }
      ).primaryDiagnosis.icd11Code = "1A96" ∧
    (diagnose { symptoms :=
        [{ type := .reported, category := "fever", severity := .moderate }] }
      ).primaryDiagnosis.confidence = 50 :=
  diagnose_total_default.2 _ (by decide) (by decide) (by decide) (by decide)
    (by decide) (by decide) (by decide)

/-- C8. Symptom extraction is a pure function of the case-folded text:
texts that differ only in letter case (equal after lowercasing) extract
the same symptoms, and any text containing `blister` in any letter case
yields a `vesicles`-category symptom. -/
theorem extraction_case_insensitive :
    (∀ t t' : String, jsToLower t = jsToLower t' →
      extractSymptomsFromText t = extractSymptomsFromText t') ∧
    (∀ t : String, jsIncludes (jsToLower t) "blister" = true →
      ∃ s ∈ extractSymptomsFromText t, s.category = "vesicles") := by
  constructor
  · intro t t' h
    unfold extractSymptomsFromText
    rw [h]
  · intro t h
    refine ⟨{ type := .reported, category := "vesicles", severity := .moderate },
      ?_, rfl⟩
    simp [extractSymptomsFromText, h]

/-- Witness for C8: `MILD Itch` and `mild itch` extract identically, and
`BLISTER` yields a vesicles symptom. -/
theorem extraction_case_insensitive_witness :
    extractSymptomsFromText "MILD Itch" = extractSymptomsFromText "mild itch" ∧
    ∃ s ∈ extractSymptomsFromText "BLISTER", s.category = "vesicles" :=
  ⟨extraction_case_insensitive.1 _ _ (by decide),
   extraction_case_insensitive.2 _ (by decide)⟩

/-- C9. The keyword `sore` sits in both the pain and the ulcer keyword
lists: a text whose only matching keyword is `sore` extracts both a
`pain`-category symptom and a severe `ulcer`-category symptom, and the
resulting fresh-engine diagnosis is the syphilis branch with urgency
`urgent`. -/
theorem sore_yields_pain_ulcer_syphilis (t : String) (h : soreIsOnlyKeyword t) :
    (∃ s ∈ extractSymptomsFromText t, s.category = "pain") ∧
    ({ type := .reported, category := "ulcer", severity := .severe } : Symptom) ∈
      extractSymptomsFromText t ∧
    diagnose (engineFromText t) = diagnoseSyphilis ∧
    (diagnose (engineFromText t)).primaryDiagnosis.icd11Code = "1A62" ∧
    (diagnose (engineFromText t)).urgency = Urgency.urgent := by
  obtain ⟨hsore, hpain, hhurt, hache, hitch, hitchy, hitching, hdis, hfluid,
    hleak, hdrip, hred, hredness, hinflamed, hinflammation, hbump, hlump,
    hgrowth, hwart, hblister, hvesicle, hff, hbubble, hulcer, how, hcrater,
    hurination, hurinating, hpee, hburning⟩ := h
  have hsore' : jsIncludes (jsToLower t) "sore" = true :=
    jsIncludes_of_textContains (by decide) hsore
  have hext : extractSymptomsFromText t =
      [{ type := .reported, category := "pain",
         severity := painSeverity (jsToLower t) },
       { type := .reported, category := "ulcer", severity := .severe }] := by
    unfold extractSymptomsFromText
    simp [hsore', hpain, hhurt, hache, hitch, hitchy, hitching, hdis, hfluid,
      hleak, hdrip, hred, hredness, hinflamed, hinflammation, hbump, hlump,
      hgrowth, hwart, hblister, hvesicle, hff, hbubble, hulcer, how, hcrater,
      hurination, hurinating, hpee, hburning]
  have heng : engineFromText t =
      { symptoms := extractSymptomsFromText t
        visualFeatures := { hasGenitalia := false } } := engineFromText_eq t
  have hcats : symptomCategories (engineFromText t) = ["pain", "ulcer"] := by
    rw [heng, hext]
    simp [symptomCategories, reportedSymptoms]
  have hu : "ulcer" ∈ symptomCategories (engineFromText t) := by
    rw [hcats]; simp
  have hns : ¬ noSymptomCond (engineFromText t) :=
    not_noSymptomCond_of_mem_cats hu
  have hherp : ¬ herpesCond (engineFromText t) := by
    rintro (hmem | ⟨hlt, -⟩)
    · rw [hcats] at hmem
      simp at hmem
    · rw [heng] at hlt
      simp at hlt
  have hsy : syphilisCond (engineFromText t) := Or.inl hu
  have hdiag : diagnose (engineFromText t) = diagnoseSyphilis := by
    unfold diagnose
    rw [if_neg hns, if_neg hherp, if_pos hsy]
  refine ⟨?_, ?_, hdiag, by rw [hdiag]; rfl, by rw [hdiag]; rfl⟩
  · rw [hext]
    exact ⟨_, List.mem_cons_self _ _, rfl⟩
  · rw [hext]
    simp

/-- Witness for C9: the one-word text `sore` extracts pain and ulcer
symptoms and is diagnosed as syphilis with urgency `urgent`. -/
theorem sore_yields_pain_ulcer_syphilis_witness :
    (∃ s ∈ extractSymptomsFromText "sore", s.category = "pain") ∧
    ({ type := .reported, category := "ulcer", severity := .severe } : Symptom) ∈
      extractSymptomsFromText "sore" ∧
    diagnose (engineFromText "sore") = diagnoseSyphilis ∧
    (diagnose (engineFromText "sore")).primaryDiagnosis.icd11Code = "1A62" ∧
    (diagnose (engineFromText "sore")).urgency = Urgency.urgent :=
  sore_yields_pain_ulcer_syphilis "sore" (by decide)

/-- Counterexample to C1 as stated: the text `blister ulcer itch` does
contain both `ulcer` and `itch`, yet the extracted symptoms also include
a vesicles symptom (from `blister`), so the herpes rule fires first and
the fresh-engine diagnosis is `1E90`, not the syphilis code `1A62`. -/
theorem ulcer_itch_claim_counterexample :
    textContains "blister ulcer itch" "ulcer" = true ∧
    textContains "blister ulcer itch" "itch" = true ∧
    (diagnose (engineFromText "blister ulcer itch")).primaryDiagnosis.icd11Code =
      "1E90" ∧
    (diagnose (engineFromText "blister ulcer itch")).primaryDiagnosis.icd11Code ≠
      "1A62" := by
  refine ⟨?_, ?_, ?_, ?_⟩ <;> decide

/-- C1 (amended). For any text containing both `ulcer` and `itch` whose
lowercasing contains none of the vesicle keywords (`blister`, `vesicle`,
`fluid-filled`, `bubble`), extracting symptoms into a fresh engine and
diagnosing returns the syphilis branch (`1A62`): the ulcer rule is
checked before the candida rule. -/
theorem ulcer_itch_resolves_syphilis (t : String)
    (hu : textContains t "ulcer" = true)
    (_hi : textContains t "itch" = true)
    (h1 : jsIncludes (jsToLower t) "blister" = false)
    (h2 : jsIncludes (jsToLower t) "vesicle" = false)
    (h3 : jsIncludes (jsToLower t) "fluid-filled" = false)
    (h4 : jsIncludes (jsToLower t) "bubble" = false) :
    diagnose (engineFromText t) = diagnoseSyphilis ∧
    (diagnose (engineFromText t)).primaryDiagnosis.icd11Code = "1A62" := by
  have hu' : jsIncludes (jsToLower t) "ulcer" = true :=
    jsIncludes_of_textContains (by decide) hu
  have heng := engineFromText_eq t
  have hulc : "ulcer" ∈ symptomCategories (engineFromText t) := by
    rw [mem_cats_iff, heng]
    refine ⟨⟨SymptomType.reported, "ulcer", Severity.severe, none, none⟩,
      ?_, rfl, rfl⟩
    show _ ∈ extractSymptomsFromText t
    simp [extractSymptomsFromText, hu']
  have hves : "vesicles" ∉ symptomCategories (engineFromText t) := by
    intro hmem
    rw [mem_cats_iff, heng] at hmem
    obtain ⟨s, hs, -, hcat⟩ := hmem
    simp [extractSymptomsFromText, List.mem_append, mem_ite_nil_singleton,
      h1, h2, h3, h4] at hs
    rcases hs with ⟨-, rfl⟩ | ⟨-, rfl⟩ | ⟨-, rfl⟩ | ⟨-, rfl⟩ | ⟨-, rfl⟩ |
      ⟨-, rfl⟩ | ⟨-, rfl⟩ <;> simp at hcat
  have hns : ¬ noSymptomCond (engineFromText t) :=
    not_noSymptomCond_of_mem_cats hulc
  have hherp : ¬ herpesCond (engineFromText t) := by
    rintro (hm | ⟨hlt, -⟩)
    · exact hves hm
    · rw [heng] at hlt
      simp at hlt
  have hsy : syphilisCond (engineFromText t) := Or.inl hulc
  have hdiag : diagnose (engineFromText t) = diagnoseSyphilis := by
    unfold diagnose
    rw [if_neg hns, if_neg hherp, if_pos hsy]
  exact ⟨hdiag, by rw [hdiag]; rfl⟩

/-- Witness for the amended C1: the text `ulcer itch` is diagnosed as
syphilis. -/
theorem ulcer_itch_resolves_syphilis_witness :
    diagnose (engineFromText "ulcer itch") = diagnoseSyphilis ∧
    (diagnose (engineFromText "ulcer itch")).primaryDiagnosis.icd11Code =
      "1A62" :=
  ulcer_itch_resolves_syphilis "ulcer itch" (by decide) (by decide) (by decide)
    (by decide) (by decide) (by decide)

/-- Counterexample to C3 as stated: an engine holding reported `itching`
and `discharge` symptoms (and no vesicles, ulcer or lesion category)
satisfies the claim's precondition, yet the earlier urethritis rule
swallows the discharge category and `diagnose()` returns the chlamydia
code `1A95.0`, not the candida code `1F23.0`. -/
theorem itching_discharge_candida_counterexample :
    "itching" ∈ symptomCategories
      { symptoms :=
          [{ type := .reported, category := "itching", severity := .moderate },
           { type := .reported, category := "discharge", severity := .moderate }] } ∧
    "discharge" ∈ symptomCategories
      { symptoms :=
          [{ type := .reported, category := "itching", severity := .moderate },
           { type := .reported, category := "discharge", severity := .moderate }] } ∧
    "vesicles" ∉ symptomCategories
      { symptoms :=
          [{ type := .reported, category := "itching", severity := .moderate },
           { type := .reported, category := "discharge", severity := .moderate }] } ∧
    "ulcer" ∉ symptomCategories
      { symptoms :=
          [{ type := .reported, category := "itching", severity := .moderate },
           { type := .reported, category := "discharge", severity := .moderate }] } ∧
    "lesion" ∉ symptomCategories
      { symptoms :=
          [{ type := .reported, category := "itching", severity := .moderate },
           { type := .reported, category := "discharge", severity := .moderate }] } ∧
    (diagnose
      { symptoms :=
          [{ type := .reported, category := "itching", severity := .moderate },
           { type := .reported, category := "discharge", severity := .moderate }] }
      ).primaryDiagnosis.icd11Code = "1A95.0" ∧
    (diagnose
      { symptoms :=
          [{ type := .reported, category := "itching", severity := .moderate },
           { type := .reported, category := "discharge", severity := .moderate }] }
      ).primaryDiagnosis.icd11Code ≠ "1F23.0" := by
  refine ⟨?_, ?_, ?_, ?_, ?_, ?_, ?_⟩ <;> decide

/-- C3 (amended). When the reported categories include `itching` and none
of `vesicles`, `ulcer`, `lesion`, `discharge` or `dysuria`, and the
visual features have no lesion type set but white color, `diagnose()`
returns the candida branch (`1F23.0`). -/
theorem itching_white_resolves_candida (e : MedicalDiagnosisEngine)
    (hit : "itching" ∈ symptomCategories e)
    (hv : "vesicles" ∉ symptomCategories e)
    (hu : "ulcer" ∉ symptomCategories e)
    (hl : "lesion" ∉ symptomCategories e)
    (hd : "discharge" ∉ symptomCategories e)
    (hdy : "dysuria" ∉ symptomCategories e)
    (hlt : e.visualFeatures.lesionType = Option.none)
    (hc : e.visualFeatures.color = some FeatureColor.white) :
    diagnose e = diagnoseCandida ∧
    (diagnose e).primaryDiagnosis.icd11Code = "1F23.0" := by
  have hns : ¬ noSymptomCond e := not_noSymptomCond_of_mem_cats hit
  have h1 : ¬ herpesCond e := by
    rintro (h | ⟨h', -⟩)
    · exact hv h
    · rw [hlt] at h'
      cases h'
  have h2 : ¬ syphilisCond e := by
    rintro (h | ⟨h', -⟩)
    · exact hu h
    · rw [hlt] at h'
      cases h'
  have h3 : ¬ hpvCond e := by
    rintro (h | ⟨h', -⟩)
    · exact hl h
    · rw [hlt] at h'
      cases h'
  have h4 : ¬ urethritisCond e := by
    rintro (h | h | h')
    · exact hd h
    · exact hdy h
    · rw [hlt] at h'
      cases h'
  have h5 : candidaCond e := ⟨hit, Or.inr hc⟩
  have hdiag : diagnose e = diagnoseCandida := by
    unfold diagnose
    rw [if_neg hns, if_neg h1, if_neg h2, if_neg h3, if_neg h4, if_pos h5]
  exact ⟨hdiag, by rw [hdiag]; rfl⟩

/-- Witness for the amended C3: one reported itching symptom plus white
visual color yields the candida branch. -/
theorem itching_white_resolves_candida_witness :
    diagnose
      { symptoms :=
          [{ type := .reported, category := "itching", severity := .moderate }]
        visualFeatures := { hasGenitalia := true, color := some .white } } =
      diagnoseCandida ∧
    (diagnose
      { symptoms :=
          [{ type := .reported, category := "itching", severity := .moderate }]
        visualFeatures := { hasGenitalia := true, color := some .white } }
      ).primaryDiagnosis.icd11Code = "1F23.0" :=
  itching_white_resolves_candida _ (by decide) (by decide) (by decide)
    (by decide) (by decide) (by decide) (by decide) (by decide)

/-- Counterexample to C4 as stated: an engine whose accumulated symptoms
contain a discharge-category and a dysuria-category entry of kind
`visual` (and no vesicles, ulcer or lesion category) satisfies the
claim's precondition, yet with no reported symptoms and the initial
visual features `diagnose()` takes the no-symptom branch (`QA02`), not
the gonorrhea branch `1A91.0`. -/
theorem urethritis_claim_counterexample :
    (∃ s ∈ ({ symptoms :=
        [{ type := .visual, category := "discharge", severity := .moderate },
         { type := .visual, category := "dysuria", severity := .moderate }] } :
        MedicalDiagnosisEngine).symptoms, s.category = "discharge") ∧
    (∃ s ∈ ({ symptoms :=
        [{ type := .visual, category := "discharge", severity := .moderate },
         { type := .visual, category := "dysuria", severity := .moderate }] } :
        MedicalDiagnosisEngine).symptoms, s.category = "dysuria") ∧
    (∀ s ∈ ({ symptoms :=
        [{ type := .visual, category := "discharge", severity := .moderate },
         { type := .visual, category := "dysuria", severity := .moderate }] } :
        MedicalDiagnosisEngine).symptoms,
      s.category ≠ "vesicles" ∧ s.category ≠ "ulcer" ∧ s.category ≠ "lesion") ∧
    (diagnose { symptoms :=
        [{ type := .visual, category := "discharge", severity := .moderate },
         { type := .visual, category := "dysuria", severity := .moderate }] }
      ).primaryDiagnosis.icd11Code = "QA02" ∧
    (diagnose { symptoms :=
        [{ type := .visual, category := "discharge", severity := .moderate },
         { type := .visual, category := "dysuria", severity := .moderate }] }
      ).primaryDiagnosis.icd11Code ≠ "1A91.0" := by
  refine ⟨?_, ?_, ?_, ?_, ?_⟩ <;> decide

/-- C4 (amended). When the reported categories include `discharge` or
`dysuria`, none of `vesicles`, `ulcer` or `lesion` is reported, and no
visual lesion type is set, the urethritis rule fires and its secondary
branch holds: if the accumulated symptoms contain both a discharge- and
a dysuria-category entry the result is gonorrhea (`1A91.0`, confidence
75) with chlamydia among the differentials; otherwise it is chlamydia
(`1A95.0`, confidence 70) with gonorrhea among the differentials. -/
theorem urethritis_secondary_branch (e : MedicalDiagnosisEngine)
    (hv : "vesicles" ∉ symptomCategories e)
    (hu : "ulcer" ∉ symptomCategories e)
    (hl : "lesion" ∉ symptomCategories e)
    (hlt : e.visualFeatures.lesionType = Option.none)
    (htrig : "discharge" ∈ symptomCategories e ∨ "dysuria" ∈ symptomCategories e) :
    (hasDischarge e ∧ hasDysuria e →
      diagnose e = gonorrheaResult ∧
      (diagnose e).primaryDiagnosis.icd11Code = "1A91.0" ∧
      (diagnose e).primaryDiagnosis.confidence = 75 ∧
      ∃ d ∈ (diagnose e).differentialDiagnoses, d.icd11Code = "1A95.0") ∧
    (¬ (hasDischarge e ∧ hasDysuria e) →
      diagnose e = chlamydiaResult ∧
      (diagnose e).primaryDiagnosis.icd11Code = "1A95.0" ∧
      (diagnose e).primaryDiagnosis.confidence = 70 ∧
      ∃ d ∈ (diagnose e).differentialDiagnoses, d.icd11Code = "1A91.0") := by
  have hns : ¬ noSymptomCond e := by
    rcases htrig with h | h
    · exact not_noSymptomCond_of_mem_cats h
    · exact not_noSymptomCond_of_mem_cats h
  have h1 : ¬ herpesCond e := by
    rintro (h | ⟨h', -⟩)
    · exact hv h
    · rw [hlt] at h'
      cases h'
  have h2 : ¬ syphilisCond e := by
    rintro (h | ⟨h', -⟩)
    · exact hu h
    · rw [hlt] at h'
      cases h'
  have h3 : ¬ hpvCond e := by
    rintro (h | ⟨h', -⟩)
    · exact hl h
    · rw [hlt] at h'
      cases h'
  have h4 : urethritisCond e := by
    rcases htrig with h | h
    · exact Or.inl h
    · exact Or.inr (Or.inl h)
  have hstep : diagnose e = diagnoseUrethritis e := by
    unfold diagnose
    rw [if_neg hns, if_neg h1, if_neg h2, if_neg h3, if_pos h4]
  constructor
  · intro hb
    have hg : diagnoseUrethritis e = gonorrheaResult := by
      unfold diagnoseUrethritis
      rw [if_pos hb]
    rw [hstep, hg]
    exact ⟨rfl, rfl, rfl, ⟨_, List.mem_cons_self _ _, rfl⟩⟩
  · intro hb
    have hg : diagnoseUrethritis e = chlamydiaResult := by
      unfold diagnoseUrethritis
      rw [if_neg hb]
    rw [hstep, hg]
    exact ⟨rfl, rfl, rfl, ⟨_, List.mem_cons_self _ _, rfl⟩⟩

/-- Witness for the amended C4: reported discharge with dysuria gives
gonorrhea; reported discharge alone gives chlamydia. -/
theorem urethritis_secondary_branch_witness :
    ((diagnose { symptoms :=
        [{ type := .reported, category := "discharge", severity := .moderate },
         { type := .reported, category := "dysuria", severity := .moderate }] }
      ).primaryDiagnosis.icd11Code = "1A91.0" ∧
      (diagnose { symptoms :=
        [{ type := .reported, category := "discharge", severity := .moderate },
         { type := .reported, category := "dysuria", severity := .moderate }] }
      ).primaryDiagnosis.confidence = 75) ∧
    ((diagnose { symptoms :=
        [{ type := .reported, category := "discharge", severity := .moderate }] }
      ).primaryDiagnosis.icd11Code = "1A95.0" ∧
      (diagnose { symptoms :=
        [{ type := .reported, category := "discharge", severity := .moderate }] }
      ).primaryDiagnosis.confidence = 70) :=
  ⟨⟨((urethritis_secondary_branch _ (by decide) (by decide) (by decide)
        (by decide) (by decide)).1 (by decide)).2.1,
    ((urethritis_secondary_branch _ (by decide) (by decide) (by decide)
        (by decide) (by decide)).1 (by decide)).2.2.1⟩,
   ⟨((urethritis_secondary_branch _ (by decide) (by decide) (by decide)
        (by decide) (by decide)).2 (by decide)).2.1,
    ((urethritis_secondary_branch _ (by decide) (by decide) (by decide)
        (by decide) (by decide)).2 (by decide)).2.2.1⟩⟩

end Gonobee
